import Mathlib

/-!
# Verification of the session lifecycle and log pipeline of `docker.go`

Shallow embedding of the parts of `docker.go` that the specification talks
about: the reaper-label merge performed by `DockerProvider.CreateContainer`
and `DockerProvider.CreateNetwork`, the `DockerContainer.Start` / `Stop`
lifecycle calls, the unbuffered `stopProducer` control channel, and the
log-producer worker loop spawned by `DockerContainer.StartLogProducer`.

Pure data is modelled directly (byte lists, association lists for Go maps);
the worker loop is modelled as a state machine driven by a trace of stream
read events; results of calls into the external engine are inputs.
-/

set_option autoImplicit false

namespace Docker

/-! ## Go maps of labels

Go's `map[string]string` is modelled as an association list with
first-match lookup; `mergeReaperLabels` inserts a pair only when the key is
absent, exactly as the merge loops in `CreateContainer` (docker.go 900-904)
and `CreateNetwork` (docker.go 1266-1270) do. -/

abbrev LabelMap := List (String × String)

def lookupLabel (m : LabelMap) (k : String) : Option String :=
  match m with
  | [] => none
  | (k1, v) :: rest => if k1 = k then some v else lookupLabel rest k

/-- One step of the merge loop body:
`if _, ok := req.Labels[k]; !ok { req.Labels[k] = v }`. -/
def mergeStep (acc : LabelMap) (kv : String × String) : LabelMap :=
  if (lookupLabel acc kv.1).isSome then acc else acc ++ [kv]

/-- docker.go 900-904 and 1266-1270:
`for k, v := range r.Labels() { if _, ok := req.Labels[k]; !ok { req.Labels[k] = v } }`. -/
def mergeReaperLabels (reqLabels reaperLabels : LabelMap) : LabelMap :=
  reaperLabels.foldl mergeStep reqLabels

/-- The label map handed to the engine's `ContainerCreate` call
(docker.go 884-905, 984): the reaper's labels are merged only when
`req.SkipReaper` is unset. -/
def createContainerLabels (skipReaper : Bool) (reqLabels reaperLabels : LabelMap) :
    LabelMap :=
  if skipReaper then reqLabels else mergeReaperLabels reqLabels reaperLabels

/-- The label map handed to the engine's `NetworkCreate` call
(docker.go 1240-1273): same shape as the container path. -/
def createNetworkLabels (skipReaper : Bool) (reqLabels reaperLabels : LabelMap) :
    LabelMap :=
  if skipReaper then reqLabels else mergeReaperLabels reqLabels reaperLabels

/-! ## `DockerContainer.Start` and `DockerContainer.Stop`

docker.go 177-195 and 206-217.  Both begin with `shortID := c.ID[:12]`,
which in Go panics (`slice bounds out of range`) whenever `len(c.ID) < 12`;
the panic is modelled as `none`.  The engine's answers (`ContainerStart`,
`ContainerStop`, `WaitUntilReady`) are inputs.  `calls` records the engine
requests issued during the call. -/

inductive EngineCall where
  | containerStart
  | containerStop
  | containerRemove
deriving DecidableEq, Repr

structure LifecycleOutcome where
  calls : List EngineCall
  retErr : Option String
  isRunning : Bool
deriving DecidableEq, Repr

/-- `DockerContainer.Start` (docker.go 177-195): slice `c.ID[:12]`; call
`ContainerStart` and return its error if any; if `WaitingFor` is set, run
`WaitUntilReady` and return its error if any (leaving `isRunning` as it
was); otherwise set `isRunning = true` and return nil.
`waitingFor = none` means no wait strategy is attached; `some w` means a
strategy whose `WaitUntilReady` result is `w`. -/
def dockerContainerStart (id : String) (isRunning0 : Bool) (startErr : Option String)
    (waitingFor : Option (Option String)) : Option LifecycleOutcome :=
  if id.length < 12 then none
  else some <|
    match startErr with
    | some e => ⟨[.containerStart], some e, isRunning0⟩
    | none =>
      match waitingFor with
      | some (some e) => ⟨[.containerStart], some e, isRunning0⟩
      | some none => ⟨[.containerStart], none, true⟩
      | none => ⟨[.containerStart], none, true⟩

/-- `DockerContainer.Stop` (docker.go 206-217): slice `c.ID[:12]`; call
`ContainerStop` and return its error if any; otherwise set
`isRunning = false`. -/
def dockerContainerStop (id : String) (isRunning0 : Bool) (stopErr : Option String) :
    Option LifecycleOutcome :=
  if id.length < 12 then none
  else some <|
    match stopErr with
    | some e => ⟨[.containerStop], some e, isRunning0⟩
    | none => ⟨[.containerStop], none, false⟩

/-! ## The `stopProducer` control channel

`CreateContainer` builds the container with `stopProducer: make(chan bool)`
(docker.go 1065), an **unbuffered** channel.  `StopLogProducer`
(docker.go 601-604) performs an unconditional blocking send
`c.stopProducer <- true`.  A send on an unbuffered channel completes only
when a receiver is ready; the only receiver is the worker goroutine spawned
by `StartLogProducer`, whose `select` receives one value and then returns
(docker.go 542-549).  `workerAlive` says whether such a receiver exists;
`none` models a send that blocks forever (no other goroutine will ever
receive). -/

structure LogProducerChan where
  workerAlive : Bool
deriving DecidableEq, Repr

/-- State right after `CreateContainer`: the channel exists, no worker. -/
def newContainerChan : LogProducerChan := ⟨false⟩

/-- `StartLogProducer` spawns the worker goroutine, which loops on a
`select` with a receive from `stopProducer`. -/
def startLogProducerChan (_ : LogProducerChan) : LogProducerChan := ⟨true⟩

/-- `StopLogProducer` (docker.go 601-604): `c.stopProducer <- true`.
With a live worker the send pairs with the worker's receive and the worker
returns; with no live worker the send blocks forever (`none`). -/
def stopLogProducerChan (s : LogProducerChan) : Option LogProducerChan :=
  if s.workerAlive then some ⟨false⟩ else none

/-! ## The log-producer worker (docker.go 519-597)

The worker loop reads the engine's combined log stream: an 8-byte header
(`h[0]` = stream-kind tag, `h[4:8]` = big-endian payload length), then the
payload.  Each `r.Read(buf)` is a Go `io.Reader` read on the network
response body: it fills at most `len(buf)` bytes from the data currently
buffered and may return fewer (`buf` keeps its zero initialisation past the
bytes read), or it returns an error.  The stream is therefore modelled as a
trace of read events: a `.chunk` is a run of bytes the network delivers
together (tagged with the wall-clock time at which it is read), an `.errEv`
is a read that fails with the given message (tagged with the wall-clock
time at which the worker handles it).  An exhausted trace models a read
that blocks forever; the run ends there.

`ProducerState.requests` records the `Since` value of every
`ContainerLogs` request issued (the initial one uses `since = ""`,
docker.go 521; after `goto BEGIN` the updated `since`).  `consumers` holds,
for each registered `LogConsumer` in registration order, the `Log` values
it has accepted so far; `trace` is the flat sequence of `Accept` calls as
pairs (consumer index, log).  `stderrMsgs` collects the
`fmt.Fprintf(os.Stderr, ...)` diagnostics.  `lastRead` is ghost
instrumentation (the code keeps no such field): the time at which the last
successful read happened, for comparison with the specification's
"timestamp of the last successfully read byte". -/

structure Timestamp where
  sec : Int
  nsec : Nat
deriving DecidableEq, Repr

inductive ReadEvent where
  | chunk (data : List Nat) (time : Timestamp)
  | errEv (msg : String) (time : Timestamp)
deriving DecidableEq, Repr

structure Log where
  logType : String
  content : List Nat
deriving DecidableEq, Repr

structure ProducerState where
  since : String
  requests : List String
  consumers : List (List Log)
  trace : List (Nat × Log)
  stderrMsgs : List String
  lastRead : Option Timestamp
deriving DecidableEq, Repr

/-- Worker state at `StartLogProducer` with `k` registered consumers:
`since := ""` and one `ContainerLogs` request already issued with it. -/
def initProducerState (k : Nat) : ProducerState :=
  { since := "", requests := [""], consumers := List.replicate k [],
    trace := [], stderrMsgs := [], lastRead := none }

/-- Modelled from the spec: the stdout/stderr stream-kind names
(`StdoutLog`, `StderrLog`) are declared outside the files in scope; only
their distinctness matters here. -/
def StdoutLog : String := "STDOUT"

/-- Modelled from the spec: see `StdoutLog`. -/
def StderrLog : String := "STDERR"

/-- docker.go 577: `logTypes := []string{"", StdoutLog, StderrLog}`. -/
def logTypes : List String := ["", StdoutLog, StderrLog]

/-- `logTypes[logType]`; the worker only ever indexes with 0, 1 or 2
(after normalising values above 2 to 1), where Go indexing is total. -/
def logTypeName (n : Nat) : String := logTypes.getD n ""

/-- docker.go 565: `binary.BigEndian.Uint32(h[4:])`. -/
def beUint32 (bs : List Nat) : Nat :=
  match bs with
  | b0 :: b1 :: b2 :: b3 :: _ => ((b0 * 256 + b1) * 256 + b2) * 256 + b3
  | _ => 0

def charsStartWith : List Char → List Char → Bool
  | [], _ => true
  | _ :: _, [] => false
  | c :: cs, d :: ds => c == d && charsStartWith cs ds

def charsContain (hay needle : List Char) : Bool :=
  match hay with
  | [] => needle.isEmpty
  | _ :: rest => charsStartWith needle hay || charsContain rest needle

/-- Go `strings.Contains(s, sub)`. -/
def strContains (s sub : String) : Bool := charsContain s.toList sub.toList

/-- docker.go 555: the substring matched against the read error. -/
def closedNetMsg : String := "use of closed network connection"

/-- docker.go 557: `fmt.Sprintf("%d.%09d", now.Unix(), int64(now.Nanosecond()))`,
second half: `%09d` zero-pads the nanoseconds to 9 digits. -/
def pad9 (n : Nat) : String :=
  let s := toString n
  String.mk (List.replicate (9 - s.length) '0') ++ s

def fmtTs (t : Timestamp) : String := toString t.sec ++ "." ++ pad9 t.nsec

/-- docker.go 571. -/
def invalidLogTypeMsg (n : Nat) : String :=
  "received invalid log type: " ++ toString n

/-- docker.go 583. -/
def readKnownLenMsg (m : String) : String :=
  "error occurred reading log with known length " ++ m

/-- Result of `buf := make([]byte, n); r.Read(buf)` against the event
trace: `ok` returns the zero-padded buffer of length `n`, the remaining
trace and the read's wall-clock time; `fail` is a read error; `blocked`
is a read that never returns (trace exhausted). -/
inductive ReadResult where
  | ok (buf : List Nat) (rest : List ReadEvent) (t : Timestamp)
  | fail (msg : String) (t : Timestamp) (rest : List ReadEvent)
  | blocked
deriving DecidableEq, Repr

def readBytes (n : Nat) (events : List ReadEvent) : ReadResult :=
  match events with
  | [] => .blocked
  | .chunk data t :: rest =>
    let taken := data.take n
    let leftover := data.drop n
    let rest2 := if leftover.isEmpty then rest else .chunk leftover t :: rest
    .ok (taken ++ List.replicate (n - taken.length) 0) rest2 t
  | .errEv m t :: rest => .fail m t rest

/-- docker.go 586-591: `for _, c := range c.consumers { c.Accept(Log{...}) }` —
every registered consumer, in registration order. -/
def deliver (st : ProducerState) (ty : String) (b : List Nat) : ProducerState :=
  let l : Log := ⟨ty, b⟩
  { st with
    consumers := st.consumers.map (fun recvd => recvd ++ [l]),
    trace := st.trace ++ (List.range st.consumers.length).map (fun i => (i, l)) }

/-- One iteration of the worker's `for`/`select` default branch
(docker.go 550-592), assuming no stop signal is pending:
read the 8-byte header (on a closed-network error, update `since` to the
formatted current time and `goto BEGIN`, reissuing the request; on any
other error, `continue`); decode `count` from `h[4:]` and skip the frame
when zero; normalise a tag above 2 to 1 with a stderr diagnostic; read the
`count`-byte payload (on error print and `continue`); deliver the log to
every consumer.  Returns the state after the iteration and `some rest`
to keep looping on the remaining trace, or `none` when the worker is
blocked in a read. -/
def producerIter (events : List ReadEvent) (st : ProducerState) :
    ProducerState × Option (List ReadEvent) :=
  match readBytes 8 events with
  | .blocked => (st, none)
  | .fail m t rest =>
    if strContains m closedNetMsg then
      let s := fmtTs t
      ({ st with since := s, requests := st.requests ++ [s] }, some rest)
    else
      (st, some rest)
  | .ok h rest t =>
    let st1 := { st with lastRead := some t }
    let count := beUint32 (h.drop 4)
    if count = 0 then (st1, some rest)
    else
      let lt0 := h.headD 0
      let st2 :=
        if lt0 > 2 then
          { st1 with stderrMsgs := st1.stderrMsgs ++ [invalidLogTypeMsg lt0] }
        else st1
      let lt := if lt0 > 2 then 1 else lt0
      match readBytes count rest with
      | .blocked => (st2, none)
      | .fail m _ rest2 =>
        ({ st2 with stderrMsgs := st2.stderrMsgs ++ [readKnownLenMsg m] }, some rest2)
      | .ok b rest2 t2 =>
        (deliver { st2 with lastRead := some t2 } (logTypeName lt) b, some rest2)

/-- The worker run: iterate `producerIter` while the trace yields reads,
up to `fuel` iterations (every theorem below either quantifies over the
fuel or supplies enough of it for its concrete trace). -/
def producerRun (fuel : Nat) (events : List ReadEvent) (st : ProducerState) :
    ProducerState :=
  match fuel with
  | 0 => st
  | fuel + 1 =>
    match producerIter events st with
    | (st1, none) => st1
    | (st1, some rest) => producerRun fuel rest st1

end Docker

/-! # Theorems -/

namespace Docker

/-- Helper: a binding present in the accumulator survives any later merge
steps (a step only ever appends pairs with keys that are absent). -/
theorem lookupLabel_append_of_some (a b : LabelMap) (k : String) (v : String)
    (h : lookupLabel a k = some v) : lookupLabel (a ++ b) k = some v := by
  induction a with
  | nil => simp [lookupLabel] at h
  | cons hd tl ih =>
    obtain ⟨k1, v1⟩ := hd
    by_cases hk : k1 = k
    · simp [lookupLabel, hk] at h ⊢
      exact h
    · simp [lookupLabel, hk] at h ⊢
      exact ih h

theorem lookupLabel_append_of_none (a b : LabelMap) (k : String)
    (h : lookupLabel a k = none) : lookupLabel (a ++ b) k = lookupLabel b k := by
  induction a with
  | nil => simp
  | cons hd tl ih =>
    obtain ⟨k1, v1⟩ := hd
    by_cases hk : k1 = k
    · simp [lookupLabel, hk] at h
    · simp [lookupLabel, hk] at h ⊢
      exact ih h

theorem foldl_mergeStep_preserves (rest : LabelMap) (acc : LabelMap) (k : String)
    (v : String) (h : lookupLabel acc k = some v) :
    lookupLabel (List.foldl mergeStep acc rest) k = some v := by
  induction rest generalizing acc with
  | nil => simpa using h
  | cons hd tl ih =>
    simp only [List.foldl_cons]
    apply ih
    unfold mergeStep
    split
    · exact h
    · exact lookupLabel_append_of_some acc [hd] k v h

theorem merge_adds_absent_pairs (rest : LabelMap) (acc : LabelMap) (k : String)
    (v : String) (hmem : (k, v) ∈ rest) (hnd : (rest.map Prod.fst).Nodup)
    (habs : lookupLabel acc k = none) :
    lookupLabel (List.foldl mergeStep acc rest) k = some v := by
  induction rest generalizing acc with
  | nil => simp at hmem
  | cons hd tl ih =>
    simp only [List.map_cons, List.nodup_cons] at hnd
    simp only [List.foldl_cons]
    rcases List.mem_cons.mp hmem with heq | htl
    · subst heq
      have hstep : mergeStep acc (k, v) = acc ++ [(k, v)] := by
        unfold mergeStep
        simp [habs]
      rw [hstep]
      apply foldl_mergeStep_preserves
      rw [lookupLabel_append_of_none _ _ _ habs]
      simp [lookupLabel]
    · have hk1 : hd.1 ≠ k := by
        intro hcontra
        apply hnd.1
        rw [hcontra]
        exact List.mem_map.mpr ⟨(k, v), htl, rfl⟩
      have habs2 : lookupLabel (mergeStep acc hd) k = none := by
        unfold mergeStep
        split
        · exact habs
        · rw [lookupLabel_append_of_none _ _ _ habs]
          obtain ⟨k1, v1⟩ := hd
          simp only [lookupLabel]
          rw [if_neg hk1]
      exact ih _ htl hnd.2 habs2

/-- C1 (counterexample).  A request that does not set `SkipReaper` but
pre-sets one of the reaper's label keys keeps its own value: the reaper's
key-value pair `(sessionKey, "group-42")` is **not** contained in the label
map passed to the engine's create call, refuting the claim as stated. -/
theorem c1_reaper_labels_counterexample :
    createContainerLabels false
        [("org.testcontainers.sessionId", "user-set")]
        [("org.testcontainers.sessionId", "group-42")]
      = [("org.testcontainers.sessionId", "user-set")]
    ∧ lookupLabel
        (createContainerLabels false
          [("org.testcontainers.sessionId", "user-set")]
          [("org.testcontainers.sessionId", "group-42")])
        "org.testcontainers.sessionId" ≠ some "group-42" := by
  constructor
  · rfl
  · decide

/-- C1 (amended).  For every container or network create request that does
not set `SkipReaper` **and does not itself pre-set any of the reaper's
label keys**, the label map passed to the engine's create call contains
every key-value pair returned by the reaper's `Labels()` (keys the request
already set keep the request's value); when `SkipReaper` is set the reaper
is not consulted and the labels pass through unchanged. -/
theorem c1_reaper_labels_amended (reqLabels reaperLabels : LabelMap)
    (hnd : (reaperLabels.map Prod.fst).Nodup)
    (hfresh : ∀ p ∈ reaperLabels, lookupLabel reqLabels p.1 = none) :
    (∀ p ∈ reaperLabels,
        lookupLabel (createContainerLabels false reqLabels reaperLabels) p.1 = some p.2
      ∧ lookupLabel (createNetworkLabels false reqLabels reaperLabels) p.1 = some p.2)
    ∧ createContainerLabels true reqLabels reaperLabels = reqLabels
    ∧ createNetworkLabels true reqLabels reaperLabels = reqLabels := by
  refine ⟨?_, rfl, rfl⟩
  intro p hp
  obtain ⟨k, v⟩ := p
  have h1 : lookupLabel (mergeReaperLabels reqLabels reaperLabels) k = some v :=
    merge_adds_absent_pairs reaperLabels reqLabels k v hp hnd (hfresh _ hp)
  exact ⟨h1, h1⟩

/-- C1 (witness for the amended theorem). -/
theorem c1_reaper_labels_amended_witness :
    lookupLabel
      (createContainerLabels false [("app", "x")]
        [("org.testcontainers.sessionId", "group-42"), ("org.testcontainers", "true")])
      "org.testcontainers.sessionId" = some "group-42" := by
  have h := c1_reaper_labels_amended [("app", "x")]
    [("org.testcontainers.sessionId", "group-42"), ("org.testcontainers", "true")]
    (by decide) (by decide)
  exact (h.1 ("org.testcontainers.sessionId", "group-42") (by decide)).1

/-- C4.  If the attached wait strategy's `WaitUntilReady` fails during
`Start`, then `Start` returns that error, the only engine request issued is
the `ContainerStart` itself (no stop and no remove: the resource is left
running), and `isRunning` keeps its previous value — in particular it is
not set to `true`. -/
theorem c4_start_wait_error (id : String) (isRunning0 : Bool) (e : String)
    (hlen : 12 ≤ id.length) :
    dockerContainerStart id isRunning0 none (some (some e))
      = some ⟨[.containerStart], some e, isRunning0⟩
    ∧ ∀ out, dockerContainerStart id isRunning0 none (some (some e)) = some out →
        out.retErr = some e
      ∧ EngineCall.containerStop ∉ out.calls
      ∧ EngineCall.containerRemove ∉ out.calls
      ∧ out.isRunning = isRunning0 := by
  have hid : ¬ id.length < 12 := by omega
  constructor
  · simp [dockerContainerStart, hid]
  · intro out hout
    simp [dockerContainerStart, hid] at hout
    subst hout
    refine ⟨rfl, ?_, ?_, rfl⟩ <;> simp

/-- C4 (witness). -/
theorem c4_start_wait_error_witness :
    dockerContainerStart "0123456789abcdef" false none (some (some "startup timeout"))
      = some ⟨[.containerStart], some "startup timeout", false⟩ :=
  (c4_start_wait_error "0123456789abcdef" false "startup timeout" (by decide)).1

/-- C3.  `StopLogProducer` sends on the unbuffered `stopProducer` channel
unconditionally.  Stopping a producer that was never started blocks
forever, and after a started producer has been stopped once (its worker
received the signal and returned) a second `StopLogProducer` blocks
forever as well — contradicting the claim that both complete without
blocking.  `none` is the blocked send. -/
theorem c3_stop_producer_blocks :
    stopLogProducerChan newContainerChan = none
    ∧ stopLogProducerChan (startLogProducerChan newContainerChan) = some ⟨false⟩
    ∧ (stopLogProducerChan (startLogProducerChan newContainerChan)).bind
        stopLogProducerChan = none := by
  decide

/-- C10.  `Start` and `Stop` take `c.ID[:12]` before contacting the engine:
with an ID of at least 12 characters both proceed (return an outcome), and
with a shorter ID both fault on the out-of-range slice (modelled `none`)
instead of returning an error. -/
theorem c10_short_id_slice (id : String) :
    (id.length < 12 →
        (∀ isRunning0 startErr waitingFor,
            dockerContainerStart id isRunning0 startErr waitingFor = none)
      ∧ ∀ isRunning0 stopErr, dockerContainerStop id isRunning0 stopErr = none)
    ∧ (12 ≤ id.length →
        (∀ isRunning0 startErr waitingFor,
            (dockerContainerStart id isRunning0 startErr waitingFor).isSome)
      ∧ ∀ isRunning0 stopErr, (dockerContainerStop id isRunning0 stopErr).isSome) := by
  constructor
  · intro hshort
    exact ⟨fun _ _ _ => by simp [dockerContainerStart, hshort],
      fun _ _ => by simp [dockerContainerStop, hshort]⟩
  · intro hlong
    have hid : ¬ id.length < 12 := by omega
    exact ⟨fun _ _ _ => by simp [dockerContainerStart, hid],
      fun _ _ => by simp [dockerContainerStop, hid]⟩

/-! ### Helper lemmas about the log-producer worker -/

/-- One worker iteration either leaves the consumer lists untouched or
appends one identical log — whose type is `logTypes` indexed with a value
at most 2 — to every consumer. -/
theorem producerIter_consumers (events : List ReadEvent) (st : ProducerState) :
    (producerIter events st).1.consumers = st.consumers ∨
    ∃ lt b, lt ≤ 2 ∧ (producerIter events st).1.consumers
        = st.consumers.map (fun recvd => recvd ++ [⟨logTypeName lt, b⟩]) := by
  unfold producerIter
  cases h8 : readBytes 8 events with
  | blocked => left; rfl
  | fail m t rest =>
    by_cases hc : strContains m closedNetMsg = true <;> simp [hc]
  | ok h rest t =>
    by_cases hz : beUint32 (h.drop 4) = 0
    · simp [hz]
    · simp only [hz, if_false]
      cases hp : readBytes (beUint32 (h.drop 4)) rest with
      | blocked => by_cases hlt : 2 < h.head?.getD 0 <;> simp [hlt, hp]
      | fail m tt rest2 => by_cases hlt : 2 < h.head?.getD 0 <;> simp [hlt, hp]
      | ok b rest2 t2 =>
        right
        by_cases hlt : 2 < h.head?.getD 0
        · exact ⟨1, b, by omega, by simp [hlt, hp, deliver]⟩
        · exact ⟨h.head?.getD 0, b, by omega, by simp [hlt, hp, deliver]⟩

/-- Every log a consumer has accepted carries one of the three names of
`logTypes` (the empty stdin slot, stdout, stderr). -/
def ConsumersGood (cs : List (List Log)) : Prop :=
  ∀ r ∈ cs, ∀ lg ∈ r,
    lg.logType = "" ∨ lg.logType = StdoutLog ∨ lg.logType = StderrLog

/-- All consumers have accepted the same sequence of logs. -/
def AllSameConsumers (cs : List (List Log)) : Prop :=
  ∀ r1 ∈ cs, ∀ r2 ∈ cs, r1 = r2

theorem goodLogType_name (lt : Nat) (h : lt ≤ 2) :
    logTypeName lt = "" ∨ logTypeName lt = StdoutLog ∨ logTypeName lt = StderrLog := by
  interval_cases lt <;> simp [logTypeName, logTypes]

theorem consumersGood_iter (events : List ReadEvent) (st : ProducerState)
    (h : ConsumersGood st.consumers) :
    ConsumersGood (producerIter events st).1.consumers := by
  rcases producerIter_consumers events st with heq | ⟨lt, b, hlt, heq⟩
  · rw [heq]; exact h
  · rw [heq]
    intro r hr lg hlg
    obtain ⟨r0, hr0, rfl⟩ := List.mem_map.mp hr
    rcases List.mem_append.mp hlg with hin | hone
    · exact h r0 hr0 lg hin
    · have heq2 : lg = ⟨logTypeName lt, b⟩ := by simpa using hone
      subst heq2
      exact goodLogType_name lt hlt

theorem consumersGood_run (fuel : Nat) (events : List ReadEvent) (st : ProducerState)
    (h : ConsumersGood st.consumers) :
    ConsumersGood (producerRun fuel events st).consumers := by
  induction fuel generalizing events st with
  | zero => exact h
  | succ n ih =>
    simp only [producerRun]
    rcases hit : producerIter events st with ⟨st1, cont⟩
    have h1 : ConsumersGood st1.consumers := by
      have h2 := consumersGood_iter events st h
      rw [hit] at h2
      exact h2
    cases cont with
    | none => exact h1
    | some rest => simpa using ih rest st1 h1

theorem allSame_iter (events : List ReadEvent) (st : ProducerState)
    (h : AllSameConsumers st.consumers) :
    AllSameConsumers (producerIter events st).1.consumers := by
  rcases producerIter_consumers events st with heq | ⟨lt, b, hlt, heq⟩
  · rw [heq]; exact h
  · rw [heq]
    intro r1 hr1 r2 hr2
    obtain ⟨q1, hq1, rfl⟩ := List.mem_map.mp hr1
    obtain ⟨q2, hq2, rfl⟩ := List.mem_map.mp hr2
    rw [h q1 hq1 q2 hq2]

theorem allSame_run (fuel : Nat) (events : List ReadEvent) (st : ProducerState)
    (h : AllSameConsumers st.consumers) :
    AllSameConsumers (producerRun fuel events st).consumers := by
  induction fuel generalizing events st with
  | zero => exact h
  | succ n ih =>
    simp only [producerRun]
    rcases hit : producerIter events st with ⟨st1, cont⟩
    have h1 : AllSameConsumers st1.consumers := by
      have h2 := allSame_iter events st h
      rw [hit] at h2
      exact h2
    cases cont with
    | none => exact h1
    | some rest => simpa using ih rest st1 h1

/-! ### Claims about the log-producer worker -/

/-- C2 (counterexample).  The worker delivers a frame whose last byte is
read at time 100.000000005 s; then the header read fails with a
closed-network-connection error handled at time 200.000000007 s.  The
reissued request's `since` is the formatted **current** time
(`time.Now()`, docker.go 556-557), not the timestamp of the last
successfully read byte, refuting the claim as stated. -/
theorem c2_since_counterexample :
    (producerRun 3 [.chunk [1, 0, 0, 0, 0, 0, 0, 1, 97] ⟨100, 5⟩,
        .errEv "read tcp 127.0.0.1:443: use of closed network connection" ⟨200, 7⟩]
        (initProducerState 1)).requests = ["", fmtTs ⟨200, 7⟩]
    ∧ (producerRun 3 [.chunk [1, 0, 0, 0, 0, 0, 0, 1, 97] ⟨100, 5⟩,
        .errEv "read tcp 127.0.0.1:443: use of closed network connection" ⟨200, 7⟩]
        (initProducerState 1)).lastRead = some ⟨100, 5⟩
    ∧ fmtTs ⟨200, 7⟩ ≠ fmtTs ⟨100, 5⟩ := by
  decide

/-- C2 (amended).  Whenever the worker's read of the 8-byte frame header
fails with a closed-network-connection error, it reissues the log-stream
request with `since` set to the **current wall-clock time at which the
error is handled**, formatted `%d.%09d` — second-and-nanosecond precision
preserved.  Already-delivered data is not replayed, but log data emitted
between the last successfully read byte and the reconnection may be
skipped. -/
theorem c2_since_now_amended (fuel : Nat) (m : String) (t : Timestamp)
    (rest : List ReadEvent) (st : ProducerState)
    (hc : strContains m closedNetMsg = true) :
    producerRun (fuel + 1) (.errEv m t :: rest) st
      = producerRun fuel rest
          { st with since := fmtTs t, requests := st.requests ++ [fmtTs t] } := by
  simp [producerRun, producerIter, readBytes, hc]

/-- C2 (witness for the amended theorem). -/
theorem c2_since_now_amended_witness :
    producerRun 1 [.errEv closedNetMsg ⟨1700000000, 123456789⟩] (initProducerState 0)
      = producerRun 0 []
          { initProducerState 0 with
            since := fmtTs ⟨1700000000, 123456789⟩,
            requests := (initProducerState 0).requests ++ [fmtTs ⟨1700000000, 123456789⟩] } :=
  c2_since_now_amended 0 closedNetMsg ⟨1700000000, 123456789⟩ [] (initProducerState 0)
    (by decide)

/-- C5 (counterexample).  A frame with header tag byte 0 and payload `"a"`
is delivered with kind `""` (the stdin slot of `logTypes`), not stdout:
tag 0 is not normalized (only tags above 2 are, docker.go 570-574),
refuting the claim for tag 0 and the consequent that every delivered kind
is stdout or stderr. -/
theorem c5_tag_zero_counterexample :
    (producerRun 3 [.chunk [0, 0, 0, 0, 0, 0, 0, 1, 97] ⟨0, 0⟩]
        (initProducerState 1)).consumers = [[⟨"", [97]⟩]]
    ∧ ("" : String) ≠ StdoutLog ∧ ("" : String) ≠ StderrLog := by
  decide

/-- C5 (amended).  A frame whose header tag byte is **greater than 2**
(e.g. the undocumented value 3) is normalized to stdout, with a stderr
diagnostic; a tag byte of 0 indexes the stdin slot and yields kind `""`;
consequently every delivered record's kind is in
`{"", stdout, stderr}`. -/
theorem c5_tag_normalization_amended :
    (∀ (fuel : Nat) (st : ProducerState) (rest : List ReadEvent) (b0 p : Nat)
        (t1 : Timestamp), 2 < b0 →
      producerRun (fuel + 1) (.chunk [b0, 0, 0, 0, 0, 0, 0, 1, p] t1 :: rest) st
        = producerRun fuel rest
            (deliver
              { st with lastRead := some t1,
                        stderrMsgs := st.stderrMsgs ++ [invalidLogTypeMsg b0] }
              StdoutLog [p]))
    ∧ ∀ (fuel : Nat) (events : List ReadEvent) (k : Nat),
        ConsumersGood (producerRun fuel events (initProducerState k)).consumers := by
  constructor
  · intro fuel st rest b0 p t1 hb0
    simp [producerRun, producerIter, readBytes, hb0, logTypeName, logTypes, beUint32]
  · intro fuel events k
    apply consumersGood_run
    intro r hr
    rw [List.eq_of_mem_replicate hr]
    intro lg hlg
    simp at hlg

/-- C5 (witness for the amended theorem): tag byte 3 delivers stdout. -/
theorem c5_tag_normalization_amended_witness :
    producerRun 1 [.chunk [3, 0, 0, 0, 0, 0, 0, 1, 97] ⟨0, 0⟩] (initProducerState 1)
      = producerRun 0 []
          (deliver
            { initProducerState 1 with
              lastRead := some ⟨0, 0⟩,
              stderrMsgs := (initProducerState 1).stderrMsgs ++ [invalidLogTypeMsg 3] }
            StdoutLog [97]) :=
  c5_tag_normalization_amended.1 0 (initProducerState 1) [] 3 97 ⟨0, 0⟩ (by decide)

/-- C6.  Evaluation at the failing input: the stream delivers the header
(stdout, length 3) together with the first payload byte 97 in one network
chunk, and the remaining payload bytes 98, 99 in the next chunk.  The
single `r.Read(b)` (docker.go 579-580) returns only byte 97; the worker
delivers the zero-padded buffer `[97, 0, 0]` — not the stream's payload
`[97, 98, 99]` — and then consumes bytes 98, 99 as part of the next
header. -/
theorem c6_short_read_eval :
    (producerRun 4 [.chunk [1, 0, 0, 0, 0, 0, 0, 3, 97] ⟨0, 0⟩, .chunk [98, 99] ⟨0, 0⟩]
        (initProducerState 1)).consumers = [[⟨StdoutLog, [97, 0, 0]⟩]]
    ∧ [97, 0, 0] ≠ [97, 98, 99] := by
  decide

/-- C7.  Delivery is a broadcast: if all registered consumers have
received the same sequence so far, they still agree after any run (each
decoded frame goes to every consumer); concretely, with two consumers and
the frame sequence stdout `"a"`, stderr `"b"`, stdout `"c"`, each consumer
receives exactly that ordered sequence, and the flat `Accept` trace visits
the consumers in registration order within each frame. -/
theorem c7_broadcast_order :
    (∀ (fuel : Nat) (events : List ReadEvent) (st : ProducerState),
        AllSameConsumers st.consumers →
        AllSameConsumers (producerRun fuel events st).consumers)
    ∧ (producerRun 7
        [.chunk [1, 0, 0, 0, 0, 0, 0, 1, 97,
                 2, 0, 0, 0, 0, 0, 0, 1, 98,
                 1, 0, 0, 0, 0, 0, 0, 1, 99] ⟨0, 0⟩]
        (initProducerState 2)).consumers
      = [[⟨StdoutLog, [97]⟩, ⟨StderrLog, [98]⟩, ⟨StdoutLog, [99]⟩],
         [⟨StdoutLog, [97]⟩, ⟨StderrLog, [98]⟩, ⟨StdoutLog, [99]⟩]]
    ∧ (producerRun 7
        [.chunk [1, 0, 0, 0, 0, 0, 0, 1, 97,
                 2, 0, 0, 0, 0, 0, 0, 1, 98,
                 1, 0, 0, 0, 0, 0, 0, 1, 99] ⟨0, 0⟩]
        (initProducerState 2)).trace
      = [(0, ⟨StdoutLog, [97]⟩), (1, ⟨StdoutLog, [97]⟩),
         (0, ⟨StderrLog, [98]⟩), (1, ⟨StderrLog, [98]⟩),
         (0, ⟨StdoutLog, [99]⟩), (1, ⟨StdoutLog, [99]⟩)] := by
  refine ⟨fun fuel events st h => allSame_run fuel events st h, ?_, ?_⟩ <;> decide

/-- C7 (witness). -/
theorem c7_broadcast_order_witness :
    AllSameConsumers
      (producerRun 2 [.chunk [1, 0, 0, 0, 0, 0, 0, 1, 97] ⟨0, 0⟩]
        (initProducerState 2)).consumers :=
  c7_broadcast_order.1 2 [.chunk [1, 0, 0, 0, 0, 0, 0, 1, 97] ⟨0, 0⟩]
    (initProducerState 2)
    (by
      intro r1 hr1 r2 hr2
      rw [List.eq_of_mem_replicate hr1, List.eq_of_mem_replicate hr2])

/-- C8.  A header read error whose message does not indicate a closed
network connection leaves the state untouched and the worker continues
with the next read; a payload read error is reported on stderr and the
worker likewise continues with the next header — the affected frame is
skipped, no consumer receives anything for it, and log delivery goes
on. -/
theorem c8_error_skip :
    (∀ (fuel : Nat) (m : String) (t : Timestamp) (rest : List ReadEvent)
        (st : ProducerState), strContains m closedNetMsg = false →
      producerRun (fuel + 1) (.errEv m t :: rest) st = producerRun fuel rest st)
    ∧ ∀ (fuel : Nat) (st : ProducerState) (rest : List ReadEvent) (m : String)
        (t1 t2 : Timestamp) (b0 b1 b2 b3 b4 b5 b6 b7 : Nat), b0 ≤ 2 →
        beUint32 [b4, b5, b6, b7] ≠ 0 → strContains m closedNetMsg = false →
      producerRun (fuel + 1)
          (.chunk [b0, b1, b2, b3, b4, b5, b6, b7] t1 :: .errEv m t2 :: rest) st
        = producerRun fuel rest
            { st with lastRead := some t1,
                      stderrMsgs := st.stderrMsgs ++ [readKnownLenMsg m] } := by
  constructor
  · intro fuel m t rest st hc
    simp [producerRun, producerIter, readBytes, hc]
  · intro fuel st rest m t1 t2 b0 b1 b2 b3 b4 b5 b6 b7 htag hcount hc
    have htag2 : ¬ b0 > 2 := by omega
    simp [producerRun, producerIter, readBytes, hcount, htag2]

/-- C8 (witness): an `"unexpected EOF"` header read error is skipped. -/
theorem c8_error_skip_witness :
    producerRun 1 [.errEv "unexpected EOF" ⟨0, 0⟩] (initProducerState 1)
      = producerRun 0 [] (initProducerState 1) :=
  c8_error_skip.1 0 "unexpected EOF" ⟨0, 0⟩ [] (initProducerState 1) (by decide)

/-- C9.  A frame whose 4-byte big-endian length field decodes to zero is
skipped: no consumer's state changes, no `Accept` call is traced, nothing
is reported, and the worker proceeds directly to reading the next 8-byte
header (only the ghost last-read time advances). -/
theorem c9_zero_length_skip (fuel : Nat) (st : ProducerState) (rest : List ReadEvent)
    (b0 b1 b2 b3 b4 b5 b6 b7 : Nat) (t : Timestamp)
    (hcount : beUint32 [b4, b5, b6, b7] = 0) :
    producerRun (fuel + 1) (.chunk [b0, b1, b2, b3, b4, b5, b6, b7] t :: rest) st
      = producerRun fuel rest { st with lastRead := some t } := by
  simp [producerRun, producerIter, readBytes, hcount]

/-- C9 (witness). -/
theorem c9_zero_length_skip_witness :
    producerRun 1 [.chunk [1, 0, 0, 0, 0, 0, 0, 0] ⟨0, 0⟩] (initProducerState 1)
      = producerRun 0 [] { initProducerState 1 with lastRead := some ⟨0, 0⟩ } :=
  c9_zero_length_skip 0 (initProducerState 1) [] 1 0 0 0 0 0 0 0 ⟨0, 0⟩ (by decide)

/-- C10 (witness): a 5-character ID faults, a 64-character ID proceeds. -/
theorem c10_short_id_slice_witness :
    dockerContainerStart "abcde" false none none = none
    ∧ (dockerContainerStart
        "0123456789abcdef0123456789abcdef0123456789abcdef0123456789abcdef"
        false none none).isSome := by
  constructor
  · exact ((c10_short_id_slice "abcde").1 (by decide)).1 false none none
  · exact ((c10_short_id_slice
      "0123456789abcdef0123456789abcdef0123456789abcdef0123456789abcdef").2
      (by decide)).1 false none none

end Docker
